import Mathlib

/-!
Verification of the music-catalog analytics pipeline in `app.py`.

The development shallowly embeds the pandas pipeline of `load_data` and the
sidebar filter / aggregation code: CSV cells are modelled by `Cell` (a number,
a piece of text, or a missing value), tables by lists of records, machine
floats by `ℚ`, and fallible stages by `Option`.  Python string methods used by
the pipeline (`str.lower`, `str.title`) are embedded as executable functions
over `Char` lists with ASCII case semantics.
-/

namespace SpotifyApp

/-- ASCII lower-casing of one character, as Python `str.lower` acts on the
ASCII range (the pipeline only case-normalises catalogue text). -/
def lcChar (c : Char) : Char :=
  if 65 ≤ c.toNat ∧ c.toNat ≤ 90 then Char.ofNat (c.toNat + 32) else c

/-- ASCII upper-casing of one character. -/
def ucChar (c : Char) : Char :=
  if 97 ≤ c.toNat ∧ c.toNat ≤ 122 then Char.ofNat (c.toNat - 32) else c

/-- ASCII letter test, the "cased character" notion used by Python
`str.title` word boundaries, restricted to ASCII. -/
def isAsciiLetter (c : Char) : Bool :=
  (65 ≤ c.toNat && c.toNat ≤ 90) || (97 ≤ c.toNat && c.toNat ≤ 122)

/-- Python `str.lower`. -/
def lower (s : String) : String :=
  String.mk (s.data.map lcChar)

/-- Python `str.title` on a character list: a letter that starts a run of
letters is upper-cased, every other letter is lower-cased; the flag records
whether the previous character was a letter. -/
def titleChars : List Char → Bool → List Char
  | [], _ => []
  | c :: cs, prevAl =>
    (if isAsciiLetter c then (if prevAl then lcChar c else ucChar c) else c)
      :: titleChars cs (isAsciiLetter c)

/-- Python `str.title`. -/
def title (s : String) : String :=
  String.mk (titleChars s.data false)

/-- ASCII digit test. -/
def isDigitCh (c : Char) : Bool := 48 ≤ c.toNat && c.toNat ≤ 57

/-- A CSV cell as pandas holds it after `read_csv`: a numeric value, a
non-numeric text value, or missing (NaN). -/
inductive Cell where
  | num (q : ℚ)
  | str (s : String)
  | blank
deriving DecidableEq

/-- Whether a cell is non-numeric text.  A column containing such a cell is
read with `object` dtype, so comparing it against an integer raises
`TypeError` in pandas. -/
def Cell.isStr : Cell → Bool
  | .str _ => true
  | _ => false

/-- Python `str()` of a cell as applied by `.astype(str)`: NaN prints as
"nan", an integral float prints with a trailing ".0".  (Only the facts that
missing renders as "nan" and that numeric renderings are digit strings, never
alphabetic words, matter downstream.) -/
def Cell.astype : Cell → String
  | .num q => if q.den = 1 then toString q.num ++ ".0" else toString q
  | .str s => s
  | .blank => "nan"

/-- Coercion of one cell by `pd.to_numeric(..., errors='coerce')`: a failed
conversion becomes missing instead of raising. -/
def Cell.toNum : Cell → Option ℚ
  | .num q => some q
  | _ => none

/-- Recognition of a date string.  Modelled from the source: line 72 uses
`pd.to_datetime(..., format='mixed', errors='coerce')`, which accepts several
textual layouts; the model recognises the ISO `YYYY-MM-DD` layout — also the
layout `to_csv` itself emits — and yields the year, coercing everything else
to missing (NaT). -/
def parseDateStr (s : String) : Option ℤ :=
  match s.data with
  | [y1, y2, y3, y4, h1, m1, m2, h2, d1, d2] =>
    if isDigitCh y1 && isDigitCh y2 && isDigitCh y3 && isDigitCh y4 &&
        h1 = '-' && isDigitCh m1 && isDigitCh m2 && h2 = '-' &&
        isDigitCh d1 && isDigitCh d2 &&
        (let m := (m1.toNat - 48) * 10 + (m2.toNat - 48)
         let d := (d1.toNat - 48) * 10 + (d2.toNat - 48)
         decide (1 ≤ m) && decide (m ≤ 12) && decide (1 ≤ d) && decide (d ≤ 31)) then
      some ((((((y1.toNat - 48) * 10 + (y2.toNat - 48)) * 10 + (y3.toNat - 48)) * 10
        + (y4.toNat - 48) : ℕ) : ℤ))
    else none
  | _ => none

/-- Date coercion of one cell: the normalised date string together with the
derived year (`df['Year'] = df['Release_date'].dt.year`, line 73). -/
def Cell.dateYear : Cell → Option (String × ℤ)
  | .str s => (parseDateStr s).map (fun y => (s, y))
  | _ => none

/-- The value map of line 77:
`.map({'True': 'Explicit 🔞', 'False': 'Clean 🟢', 'true': ..., 'false': ...})`. -/
def explicitMap (s : String) : Option String :=
  if s = "True" then some "Explicit 🔞"
  else if s = "False" then some "Clean 🟢"
  else if s = "true" then some "Explicit 🔞"
  else if s = "false" then some "Clean 🟢"
  else none

/-- Line 77 end to end:
`df['Explicit'].astype(str).map({...}).fillna('Clean 🟢')`. -/
def explicitLabel (c : Cell) : String :=
  (explicitMap c.astype).getD "Clean 🟢"

/-- One raw record of the snapshot, the columns the pipeline touches.
`albumSingle` is the "Album/Single" column. -/
structure RawRow where
  Popularity : Cell
  albumSingle : Cell
  Genre : Cell
  Artist : Cell
  tempo : Cell
  danceability : Cell
  energy : Cell
  Artist_followers : Cell
  Release_date : Cell
  Explicit : Cell
deriving DecidableEq

/-- One record of the cleaned base table: typed columns after `load_data`.
`albumSingle`, `Artist` and `ExplicitRaw` keep their original cell (the code
never coerces them); `Explicit_Label` is `none` when the snapshot lacked the
Explicit column. -/
structure Row where
  Popularity : ℚ
  albumSingle : Cell
  Genre : String
  Artist : Cell
  tempo : ℚ
  danceability : Option ℚ
  energy : Option ℚ
  Artist_followers : Option ℚ
  Release_date : String
  Year : ℤ
  ExplicitRaw : Cell
  Explicit_Label : Option String
deriving DecidableEq

/-- The cleaned base table; `hasLabel` records whether the Explicit_Label
column exists (line 76 creates it only when the snapshot has an Explicit
column). -/
structure CTable where
  hasLabel : Bool
  rows : List Row
deriving DecidableEq

/-- Step A, line 58: `df[(df['Popularity'] >= 0) & (df['Popularity'] <= 100)]`.
A missing value compares False on both sides (NaN semantics), so the record
is dropped. -/
def stepA (r : RawRow) : Bool :=
  match r.Popularity with
  | .num q => decide (0 ≤ q) && decide (q ≤ 100)
  | _ => false

/-- Step B, line 60: `df[df['Album/Single'].isin(['single', 'album'])]`. -/
def stepB (r : RawRow) : Bool :=
  match r.albumSingle with
  | .str s => s = "single" || s = "album"
  | _ => false

/-- The junk-genre denylist of line 62. -/
def junkGenres : List String := ["n-a", "unknown", "world-music", "nan"]

/-- Step C, lines 62-63: drop the record when
`df['Genre'].astype(str).str.lower()` is in the denylist.  A missing genre
renders as "nan" under `astype(str)` and is therefore also dropped. -/
def stepC (r : RawRow) : Bool :=
  !(junkGenres.contains (lower r.Genre.astype))

/-- The second half of Step D, line 65:
`.replace({'K-Pop': 'K-Pop', 'K-pop': 'K-Pop'})` on whole cell values. -/
def kpopFix (s : String) : String :=
  if s = "K-pop" then "K-Pop" else s

/-- The per-record tail of `load_data`: Step D genre normalisation (line 65),
numeric coercion (lines 68-70), date parsing and Year derivation (lines
72-73), the explicit label (lines 76-77), and the final
`dropna(subset=['Year', 'Popularity', 'Genre', 'Artist', 'tempo'])` of line
79.  Returns `none` exactly when the dropna drops the record.  (The
title-cased genre is a string, hence never missing; Popularity is numeric and
present for every record that survived Step A.) -/
def finishRow (hasExplicit : Bool) (r : RawRow) : Option Row :=
  match r.Popularity.toNum, r.tempo.toNum, r.Release_date.dateYear with
  | some p, some t, some (ds, y) =>
    if r.Artist = Cell.blank then none
    else some {
      Popularity := p
      albumSingle := r.albumSingle
      Genre := kpopFix (title r.Genre.astype)
      Artist := r.Artist
      tempo := t
      danceability := r.danceability.toNum
      energy := r.energy.toNum
      Artist_followers := r.Artist_followers.toNum
      Release_date := ds
      Year := y
      ExplicitRaw := r.Explicit
      Explicit_Label := if hasExplicit then some (explicitLabel r.Explicit) else none }
  | _, _, _ => none

/-- `load_data` (lines 49-81) on an already-read snapshot.  When some
Popularity cell is non-numeric text, the whole column has `object` dtype and
the Step A comparison `df['Popularity'] >= 0` raises `TypeError`; the
surrounding `except` catches it and `load_data` returns `None` (line 81) —
modelled by the guard.  Otherwise the steps run in source order. -/
def load (hasExplicit : Bool) (raw : List RawRow) : Option CTable :=
  if raw.any (fun r => r.Popularity.isStr) then none
  else
    let a := raw.filter stepA
    let b := a.filter stepB
    let c := b.filter stepC
    some ⟨hasExplicit, c.filterMap (finishRow hasExplicit)⟩

/-- The fate of one raw record under `load_data` when the pipeline runs: it
yields a cleaned record exactly when it passes Steps A, B and C and survives
the final dropna. -/
def cleanRow (hasExplicit : Bool) (r : RawRow) : Option Row :=
  if stepA r && stepB r && stepC r then finishRow hasExplicit r else none

/-- Whether the character list `p` is an initial segment of `s`. -/
def isPre : List Char → List Char → Bool
  | [], _ => true
  | _ :: _, [] => false
  | a :: ps, b :: ss => a = b && isPre ps ss

/-- Whether the character list `p` occurs contiguously inside `s`. -/
def occursIn (p : List Char) : List Char → Bool
  | [] => isPre p []
  | s@(_ :: ss) => isPre p s || occursIn p ss

/-- Line 96: `df_filtered['Artist'].str.contains(search_query, case=False,
na=False)` — a case-insensitive substring match; a non-string artist cell
gives NaN which `na=False` treats as no match. -/
def artistContains (c : Cell) (q : String) : Bool :=
  match c with
  | .str s => occursIn (lower q).data (lower s).data
  | _ => false

/-- Lines 94-96: the year-range filter followed by the optional artist
search.  The search is applied only when the query is non-empty, exactly as
the `if search_query:` guard does. -/
def dfFiltered (rows : List Row) (lo hi : ℤ) (q : String) : List Row :=
  let f1 := rows.filter (fun r => decide (lo ≤ r.Year) && decide (r.Year ≤ hi))
  if q = "" then f1 else f1.filter (fun r => artistContains r.Artist q)

/-- Number of records carrying genre `g`. -/
def countGenre (gs : List String) (g : String) : ℕ :=
  (gs.filter (fun x => x = g)).length

/-- Distinct elements in first-occurrence order. -/
def dedupFirst {α : Type} [DecidableEq α] (l : List α) : List α :=
  l.foldl (fun acc g => if acc.contains g then acc else acc ++ [g]) []

/-- Insert `g` into a count-descending list, before the first element of
strictly smaller count, so that equal counts keep insertion order. -/
def insDesc (cnt : String → ℕ) (g : String) : List String → List String
  | [] => [g]
  | h :: t => if cnt h < cnt g then g :: h :: t else h :: insDesc cnt g t

/-- Line 136: `df_filtered['Genre'].value_counts().head(top_n).index` — the
distinct genres of the (already filtered) view ordered by descending record
count, ties in first-encountered order, truncated to the first `n`. -/
def topGenres (rows : List Row) (n : ℕ) : List String :=
  let gs := rows.map (fun r => r.Genre)
  ((dedupFirst gs).foldl (fun acc g => insDesc (countGenre gs) g acc) []).take n

/-- Lines 136-137: the top-N genre restriction, computed over the
year/search-filtered view and applied to that same view. -/
def dfSegment (rows : List Row) (lo hi : ℤ) (q : String) (n : ℕ) : List Row :=
  let v := dfFiltered rows lo hi q
  v.filter (fun r => (topGenres v n).contains r.Genre)

/-- Line 352: `def classify_tempo(bpm): return 'Slow (<100)' if bpm < 100
else 'Mainstream (100-140)' if bpm <= 140 else 'Fast (>140)'`. -/
def classifyTempo (bpm : ℚ) : String :=
  if bpm < 100 then "Slow (<100)"
  else if bpm ≤ 140 then "Mainstream (100-140)"
  else "Fast (>140)"

/-- Lines 270-271: `df_filtered[(df_filtered['Artist_followers'] < 50000) &
(df_filtered['Popularity'] > 75)]`.  A missing follower count compares False
(NaN semantics), so the record is not selected. -/
def darkHorses (rows : List Row) : List Row :=
  rows.filter (fun r =>
    (match r.Artist_followers with
     | some f => decide (f < 50000)
     | none => false) && decide (75 < r.Popularity))

/-- Modelled from the spec: the dark-horse chart only draws dashed quadrant
boundary lines at energy = 0.5 and danceability = 0.5 and four corner
annotations (lines 296-303); no code assigns a record to a quadrant.  The
spec defines the partition by energy ≥ 0.5 and danceability ≥ 0.5 into the
four named quadrants, boundaries inclusive, with the Club quadrant the
high-energy/high-dance one. -/
def quadrant (e d : ℚ) : String :=
  if mkRat 1 2 ≤ e then (if mkRat 1 2 ≤ d then "Club" else "Power")
  else (if mkRat 1 2 ≤ d then "Groove" else "Ballad")

/-- Arithmetic mean of a list of rationals. -/
def meanQ (l : List ℚ) : ℚ := l.sum / (l.length : ℚ)

/-- Line 165: `df_segment.groupby(['Genre', 'Explicit_Label'])['Popularity']
.mean()`.  When the base table was built without an Explicit column the
Explicit_Label column does not exist and the groupby raises `KeyError`;
otherwise each present (genre, label) group is averaged (group keys here in
first-occurrence order; no claim depends on key order). -/
def avgExp (t : CTable) (seg : List Row) :
    Except String (List ((String × String) × ℚ)) :=
  if t.hasLabel then
    let key := fun (r : Row) => (r.Genre, r.Explicit_Label.getD "nan")
    Except.ok ((dedupFirst (seg.map key)).map (fun k =>
      (k, meanQ ((seg.filter (fun r => key r = k)).map (fun r => r.Popularity)))))
  else Except.error "KeyError: Explicit_Label"

/-- The default NA tokens of pandas `read_csv`: a cell holding one of these
strings is read back as missing (NaN). -/
def pdNaTokens : List String :=
  ["", "#N/A", "#N/A N/A", "#NA", "-1.#IND", "-1.#QNAN", "-NaN", "-nan",
   "1.#IND", "1.#QNAN", "<NA>", "N/A", "NA", "NULL", "NaN", "None", "n/a",
   "nan", "null"]

/-- Re-reading one exported text cell: NA-token recognition of `read_csv`. -/
def readStrCell (s : String) : Cell :=
  if pdNaTokens.contains s then Cell.blank else Cell.str s

/-- Re-reading one exported cell of arbitrary origin: `to_csv` prints the
value and `read_csv` re-parses it.  A numeric rendering round-trips to the
same number, a missing value round-trips through the empty cell, and a text
value is re-read subject to NA-token recognition. -/
def exportCell : Cell → Cell
  | .num q => .num q
  | .blank => .blank
  | .str s => readStrCell s

/-- An optional numeric column value as it comes back from export. -/
def optCell : Option ℚ → Cell
  | some q => .num q
  | none => .blank

/-- Lines 102-103 composed with re-ingestion: the raw record obtained by
re-reading one exported record of a view.  `to_csv` itself transforms no
value (it also writes the derived Year, duration and Explicit_Label columns,
but the loader recomputes those from their sources, so only the source
columns matter). -/
def rowToRaw (r : Row) : RawRow where
  Popularity := .num r.Popularity
  albumSingle := exportCell r.albumSingle
  Genre := readStrCell r.Genre
  Artist := exportCell r.Artist
  tempo := .num r.tempo
  danceability := optCell r.danceability
  energy := optCell r.energy
  Artist_followers := optCell r.Artist_followers
  Release_date := readStrCell r.Release_date
  Explicit := exportCell r.ExplicitRaw

/-- Exporting a view with `to_csv(index=False).encode('utf-8-sig')` and
running the exported bytes back through the same loader. -/
def exportReload (hasExplicit : Bool) (view : List Row) : Option CTable :=
  load hasExplicit (view.map rowToRaw)

/-- The script state of one session: the memoized base table (`df`, line 83)
and the per-interaction derived objects.  In pandas, boolean-mask indexing
(`df[...]`, line 94) returns a fresh copy, so base table and filtered view
are distinct objects; the embedding keeps them in distinct fields, and the
in-place column assignment of line 353 is a write to the view field only. -/
structure Session where
  base : CTable
  view : List Row
  zone : List (Row × String)
deriving DecidableEq

/-- Rebinding `df_filtered` (lines 94-96). -/
def setView (s : Session) (lo hi : ℤ) (q : String) : Session :=
  { s with view := dfFiltered s.base.rows lo hi q }

/-- Line 353: `df_filtered['Tempo_Zone'] = df_filtered['tempo']
.apply(classify_tempo)` — the Tempo_Zone column is attached to the view. -/
def setZone (s : Session) : Session :=
  { s with zone := s.view.map (fun r => (r, classifyTempo r.tempo)) }

/-- One full sidebar interaction: recompute the filtered view from the base
table, then run the aggregation that assigns the Tempo_Zone column. -/
def interact (s : Session) (lo hi : ℤ) (q : String) : Session :=
  setZone (setView s lo hi q)

/-- A well-formed raw record used as concrete input. -/
def rawPop : RawRow where
  Popularity := .num 80
  albumSingle := .str "single"
  Genre := .str "pop"
  Artist := .str "Ann"
  tempo := .num 120
  danceability := .num (mkRat 6 10)
  energy := .blank
  Artist_followers := .num 1000
  Release_date := .str "2020-05-01"
  Explicit := .str "True"

/-- The cleaned record `load_data` derives from `rawPop` when the snapshot
has an Explicit column. -/
def rowPop : Row where
  Popularity := 80
  albumSingle := .str "single"
  Genre := "Pop"
  Artist := .str "Ann"
  tempo := 120
  danceability := some (mkRat 6 10)
  energy := none
  Artist_followers := some 1000
  Release_date := "2020-05-01"
  Year := 2020
  ExplicitRaw := .str "True"
  Explicit_Label := some "Explicit 🔞"

/-- The cleaned record `load_data` derives from `rawPop` when the snapshot
lacks the Explicit column. -/
def rowPopNL : Row :=
  { rowPop with Explicit_Label := none }

/-- A raw record whose Popularity cell is non-numeric text. -/
def rawBadPop : RawRow :=
  { rawPop with Popularity := .str "abc" }

/-- A raw record whose genre is the denylisted sentinel in upper case. -/
def rawUnknown : RawRow :=
  { rawPop with Genre := .str "UNKNOWN" }

/-- A raw record whose genre is the spelled-out placeholder "not available",
which is not on the code's denylist. -/
def rawNotAvail : RawRow :=
  { rawPop with Genre := .str "not available" }

/-- The cleaned record derived from `rawNotAvail`. -/
def rowNotAvail : Row :=
  { rowPop with Genre := "Not Available" }

/-- A raw record whose genre is the word "none", which `read_csv` does not
treat as missing but whose title-cased form "None" is a pandas NA token. -/
def rawNoneGenre : RawRow :=
  { rawPop with Genre := .str "none" }

/-- The cleaned record derived from `rawNoneGenre`. -/
def rowNoneGenre : Row :=
  { rowPop with Genre := "None" }

/-- A minimal cleaned record with the given genre and year, used to populate
the top-N genre scenario table. -/
def gRow (g : String) (y : ℤ) : Row where
  Popularity := 50
  albumSingle := .str "single"
  Genre := g
  Artist := .str "x"
  tempo := 120
  danceability := none
  energy := none
  Artist_followers := none
  Release_date := "2019-01-01"
  Year := y
  ExplicitRaw := .blank
  Explicit_Label := some "Clean 🟢"

/-- The scenario table of the top-N genre claim: genre counts {A: 10, B: 8,
C: 2} overall but {A: 1, B: 5, C: 2} restricted to year 2020. -/
def c2Rows : List Row :=
  List.replicate 9 (gRow "A" 2019) ++ [gRow "A" 2020] ++
  List.replicate 5 (gRow "B" 2020) ++ List.replicate 3 (gRow "B" 2019) ++
  List.replicate 2 (gRow "C" 2020)

/-- Whether a text cell survives NA-token recognition unchanged on re-read. -/
def cellNaFree : Cell → Bool
  | .str s => !pdNaTokens.contains s
  | _ => true

/-- Whether every free-text field of a cleaned record lies outside pandas'
NA-token list, so that its CSV rendering is re-read as the same value. -/
def rowNaFree (r : Row) : Bool :=
  !pdNaTokens.contains r.Genre && cellNaFree r.Artist && cellNaFree r.ExplicitRaw

theorem charOfNat_toNat {n : ℕ} (h : n.isValidChar) : (Char.ofNat n).toNat = n := by
  simp [Char.ofNat, h, Char.ofNatAux, Char.toNat, UInt32.toNat]

theorem charEq_of_toNat {c d : Char} (h : c.toNat = d.toNat) : c = d :=
  Char.eq_of_val_eq (UInt32.toNat.inj h)

theorem lcChar_toNat (c : Char) :
    (lcChar c).toNat = if 65 ≤ c.toNat ∧ c.toNat ≤ 90 then c.toNat + 32 else c.toNat := by
  unfold lcChar
  split_ifs with h
  · exact charOfNat_toNat (Or.inl (by omega))
  · rfl

theorem ucChar_toNat (c : Char) :
    (ucChar c).toNat = if 97 ≤ c.toNat ∧ c.toNat ≤ 122 then c.toNat - 32 else c.toNat := by
  unfold ucChar
  split_ifs with h
  · exact charOfNat_toNat (Or.inl (by omega))
  · rfl

theorem lc_idem (c : Char) : lcChar (lcChar c) = lcChar c := by
  apply charEq_of_toNat
  rw [lcChar_toNat (lcChar c), lcChar_toNat c]
  split_ifs <;> omega

theorem uc_idem (c : Char) : ucChar (ucChar c) = ucChar c := by
  apply charEq_of_toNat
  rw [ucChar_toNat (ucChar c), ucChar_toNat c]
  split_ifs <;> omega

theorem lc_uc (c : Char) : lcChar (ucChar c) = lcChar c := by
  apply charEq_of_toNat
  rw [lcChar_toNat (ucChar c), ucChar_toNat c, lcChar_toNat c]
  split_ifs <;> omega

theorem isAl_lc (c : Char) : isAsciiLetter (lcChar c) = isAsciiLetter c := by
  have h := lcChar_toNat c
  simp only [isAsciiLetter, h]
  split_ifs <;>
    (apply Bool.eq_iff_iff.mpr
     simp only [Bool.or_eq_true, Bool.and_eq_true, decide_eq_true_eq]
     try omega)

theorem isAl_uc (c : Char) : isAsciiLetter (ucChar c) = isAsciiLetter c := by
  have h := ucChar_toNat c
  simp only [isAsciiLetter, h]
  split_ifs <;>
    (apply Bool.eq_iff_iff.mpr
     simp only [Bool.or_eq_true, Bool.and_eq_true, decide_eq_true_eq]
     try omega)

theorem titleChars_idem (l : List Char) (b : Bool) :
    titleChars (titleChars l b) b = titleChars l b := by
  induction l generalizing b with
  | nil => rfl
  | cons c cs ih =>
    simp only [titleChars]
    by_cases hA : isAsciiLetter c = true
    · cases b with
      | true => simp [hA, isAl_lc, lc_idem, ih true]
      | false => simp [hA, isAl_uc, uc_idem, ih true]
    · have hA' : isAsciiLetter c = false := by simpa using hA
      simp [hA', ih false]

theorem map_lc_titleChars (l : List Char) (b : Bool) :
    (titleChars l b).map lcChar = l.map lcChar := by
  induction l generalizing b with
  | nil => rfl
  | cons c cs ih =>
    simp only [titleChars, List.map]
    rw [ih (isAsciiLetter c)]
    split_ifs with h1 h2
    · rw [lc_idem]
    · rw [lc_uc]
    · rfl

theorem title_idem (s : String) : title (title s) = title s :=
  congrArg String.mk (titleChars_idem s.data false)

theorem lower_title (s : String) : lower (title s) = lower s :=
  congrArg String.mk (map_lc_titleChars s.data false)

theorem lower_kpopFix (s : String) : lower (kpopFix s) = lower s := by
  unfold kpopFix
  split_ifs with h
  · subst h; decide
  · rfl

theorem kpopTitle_stable (g : String) :
    kpopFix (title (kpopFix (title g))) = kpopFix (title g) := by
  by_cases h : title g = "K-pop"
  · have h1 : kpopFix (title g) = "K-Pop" := by simp [kpopFix, h]
    rw [h1]
    decide
  · have h1 : kpopFix (title g) = title g := by simp [kpopFix, h]
    rw [h1, title_idem, h1]

theorem naTokens_date_none : ∀ t ∈ pdNaTokens, parseDateStr t = none := by decide

theorem parseDate_not_na {s : String} {y : ℤ} (h : parseDateStr s = some y) :
    s ∉ pdNaTokens := by
  intro hm
  rw [naTokens_date_none s hm] at h
  exact Option.noConfusion h

theorem filterMap_filter {α β : Type} (p : α → Bool) (f : α → Option β) (l : List α) :
    (l.filter p).filterMap f = l.filterMap (fun a => if p a then f a else none) := by
  induction l with
  | nil => rfl
  | cons a t ih =>
    cases hp : p a with
    | true =>
      cases hf : f a with
      | none => simp [List.filter_cons, hp, List.filterMap_cons, hf, ih]
      | some b => simp [List.filter_cons, hp, List.filterMap_cons, hf, ih]
    | false => simp [List.filter_cons, hp, List.filterMap_cons, ih]

theorem filter_filterMap_chain (hasExplicit : Bool) (l : List RawRow) :
    (((l.filter stepA).filter stepB).filter stepC).filterMap (finishRow hasExplicit)
      = l.filterMap (cleanRow hasExplicit) := by
  rw [filterMap_filter, filterMap_filter, filterMap_filter]
  have he : (fun a => if stepA a then
      if stepB a then if stepC a then finishRow hasExplicit a else none else none
      else none) = cleanRow hasExplicit := by
    funext a
    simp only [cleanRow]
    by_cases ha : stepA a <;> by_cases hb : stepB a <;> by_cases hc : stepC a <;>
      simp [ha, hb, hc]
  rw [he]

theorem load_some (hasExplicit : Bool) (raw : List RawRow)
    (h : ∀ r ∈ raw, r.Popularity.isStr = false) :
    load hasExplicit raw = some ⟨hasExplicit, raw.filterMap (cleanRow hasExplicit)⟩ := by
  unfold load
  rw [if_neg]
  · dsimp only
    rw [filter_filterMap_chain]
  · simp only [List.any_eq_true, not_exists, not_and]
    intro r hr
    simp [h r hr]

theorem load_hasLabel {hasExplicit : Bool} {raw : List RawRow} {t : CTable}
    (hl : load hasExplicit raw = some t) : t.hasLabel = hasExplicit := by
  unfold load at hl
  by_cases hg : (raw.any fun r => r.Popularity.isStr) = true
  · rw [if_pos hg] at hl
    exact Option.noConfusion hl
  · rw [if_neg hg] at hl
    obtain rfl := Option.some.inj hl
    rfl

theorem load_rows {hasExplicit : Bool} {raw : List RawRow} {t : CTable}
    (hl : load hasExplicit raw = some t) :
    t.rows = (((raw.filter stepA).filter stepB).filter stepC).filterMap (finishRow hasExplicit) := by
  unfold load at hl
  by_cases hg : (raw.any fun r => r.Popularity.isStr) = true
  · rw [if_pos hg] at hl
    exact Option.noConfusion hl
  · rw [if_neg hg] at hl
    obtain rfl := Option.some.inj hl
    rfl

theorem mem_load_rows {hasExplicit : Bool} {raw : List RawRow} {t : CTable}
    (hl : load hasExplicit raw = some t) {row : Row} (hr : row ∈ t.rows) :
    ∃ r ∈ raw, stepA r = true ∧ stepB r = true ∧ stepC r = true ∧
      finishRow hasExplicit r = some row := by
  rw [load_rows hl] at hr
  obtain ⟨r, hrm, hfin⟩ := List.mem_filterMap.mp hr
  obtain ⟨hrm2, hc⟩ := List.mem_filter.mp hrm
  obtain ⟨hrm3, hb⟩ := List.mem_filter.mp hrm2
  obtain ⟨hrm4, ha⟩ := List.mem_filter.mp hrm3
  exact ⟨r, hrm4, ha, hb, hc, hfin⟩

theorem cleanRow_some_inv {hasExplicit : Bool} {r : RawRow} {row : Row}
    (h : cleanRow hasExplicit r = some row) :
    stepA r = true ∧ stepB r = true ∧ stepC r = true ∧
      finishRow hasExplicit r = some row := by
  unfold cleanRow at h
  split_ifs at h with hg
  simp only [Bool.and_eq_true] at hg
  exact ⟨hg.1.1, hg.1.2, hg.2, h⟩

theorem finishRow_inv {hasExplicit : Bool} {r : RawRow} {row : Row}
    (h : finishRow hasExplicit r = some row) :
    r.Popularity.toNum = some row.Popularity ∧
    r.tempo.toNum = some row.tempo ∧
    r.Release_date.dateYear = some (row.Release_date, row.Year) ∧
    r.Artist ≠ Cell.blank ∧
    row.albumSingle = r.albumSingle ∧
    row.Genre = kpopFix (title r.Genre.astype) ∧
    row.Artist = r.Artist ∧
    row.danceability = r.danceability.toNum ∧
    row.energy = r.energy.toNum ∧
    row.Artist_followers = r.Artist_followers.toNum ∧
    row.ExplicitRaw = r.Explicit ∧
    row.Explicit_Label = (if hasExplicit then some (explicitLabel r.Explicit) else none) := by
  rcases hp : r.Popularity.toNum with _ | p <;>
    rcases ht : r.tempo.toNum with _ | tq <;>
    rcases hd : r.Release_date.dateYear with _ | ⟨ds, y⟩ <;>
    simp only [finishRow, hp, ht, hd] at h <;>
    try exact Option.noConfusion h
  split_ifs at h with hart hexp
  all_goals obtain rfl := Option.some.inj h
  all_goals simp [hp, ht, hd, hart, *]

theorem stepA_range {c : RawRow} {p : ℚ} (ha : stepA c = true)
    (hp : c.Popularity.toNum = some p) : 0 ≤ p ∧ p ≤ 100 := by
  unfold stepA at ha
  unfold Cell.toNum at hp
  rcases hcell : c.Popularity with q | s | _ <;> rw [hcell] at ha hp <;>
    simp at ha hp
  obtain rfl := hp
  exact ha

theorem stepB_inv {c : RawRow} (hb : stepB c = true) :
    ∃ s, c.albumSingle = .str s ∧ (s = "single" ∨ s = "album") := by
  unfold stepB at hb
  rcases hcell : c.albumSingle with q | s | _ <;> rw [hcell] at hb
  · simp at hb
  · refine ⟨s, rfl, ?_⟩
    simpa using hb
  · simp at hb

theorem dateYear_inv {cl : Cell} {ds : String} {y : ℤ}
    (h : cl.dateYear = some (ds, y)) : cl = .str ds ∧ parseDateStr ds = some y := by
  rcases hc : cl with q | s | _ <;> rw [hc] at h <;> simp only [Cell.dateYear] at h
  · exact Option.noConfusion h
  · obtain ⟨a, hps, heq⟩ := Option.map_eq_some'.mp h
    obtain ⟨rfl, rfl⟩ := Prod.mk.injEq .. |>.mp heq
    exact ⟨rfl, hps⟩
  · exact Option.noConfusion h

theorem optCell_toNum (o : Option ℚ) : (optCell o).toNum = o := by
  cases o <;> rfl

/-- C1 counterexample: line 77 maps only the strings "True"/"true" and
"False"/"false"; the indicator "1" (and "1.0") is not mapped to the Explicit
label but falls through the `fillna` default to the Clean label, and the
unrecognized value "maybe" likewise yields Clean, not an Unknown label —
contradicting the claimed mapping on the inputs "1", "1.0" and "maybe". -/
theorem C1_counterexample :
    explicitLabel (Cell.str "1") = "Clean 🟢" ∧
    explicitLabel (Cell.str "1.0") = "Clean 🟢" ∧
    explicitLabel (Cell.str "0") = "Clean 🟢" ∧
    explicitLabel (Cell.str "0.0") = "Clean 🟢" ∧
    explicitLabel (Cell.str "maybe") = "Clean 🟢" ∧
    "Clean 🟢" ≠ "Explicit 🔞" ∧ "Clean 🟢" ≠ "Unknown" := by
  decide

/-- C1 amended: the canonical explicit label is the Explicit label exactly
when the source value renders (via astype(str)) as "True" or "true", and is
the Clean label in every other case — including "1", "1.0", "0", "0.0",
missing values and unrecognized strings such as "maybe"; there is no Unknown
label, since `fillna('Clean 🟢')` is the fallback for every unmapped value. -/
theorem C1_explicit_label_total :
    ∀ c : Cell,
      explicitLabel c =
        (if c.astype = "True" ∨ c.astype = "true" then "Explicit 🔞" else "Clean 🟢") ∧
      (explicitLabel c = "Explicit 🔞" ∨ explicitLabel c = "Clean 🟢") := by
  intro c
  unfold explicitLabel explicitMap
  by_cases h1 : c.astype = "True" <;> by_cases h2 : c.astype = "False" <;>
    by_cases h3 : c.astype = "true" <;> by_cases h4 : c.astype = "false" <;>
    simp_all

/-- C2 confirmed: the view is produced by the year-range filter, then the
artist search, and the genre top-N restriction is both computed over and
applied to that already-filtered view (first conjunct, the structure of
lines 94-96 and 136-137); on the scenario table with overall genre counts
{A: 10, B: 8, C: 2} but {A: 1, B: 5, C: 2} within year 2020, the top-2
genres under the year-2020 filter are {B, C}, not the global top-2 {A, B}. -/
theorem C2_filter_order_topN :
    (∀ (rows : List Row) (lo hi : ℤ) (q : String) (n : ℕ),
      dfSegment rows lo hi q n =
        (dfFiltered rows lo hi q).filter
          (fun r => (topGenres (dfFiltered rows lo hi q) n).contains r.Genre)) ∧
    topGenres (dfFiltered c2Rows 2020 2020 "") 2 = ["B", "C"] ∧
    topGenres c2Rows 2 = ["A", "B"] :=
  ⟨fun _ _ _ _ _ => rfl, by decide, by decide⟩

/-- C3 confirmed: `classify_tempo` is a total three-way partition — for every
tempo exactly one zone applies, characterised by tempo < 100 (Slow),
100 ≤ tempo ≤ 140 (Mainstream) and tempo > 140 (Fast); in particular 100 and
140 are Mainstream and 140.0001 is Fast. -/
theorem C3_tempo_partition :
    (∀ bpm : ℚ,
      (classifyTempo bpm = "Slow (<100)" ↔ bpm < 100) ∧
      (classifyTempo bpm = "Mainstream (100-140)" ↔ 100 ≤ bpm ∧ bpm ≤ 140) ∧
      (classifyTempo bpm = "Fast (>140)" ↔ 140 < bpm)) ∧
    classifyTempo 100 = "Mainstream (100-140)" ∧
    classifyTempo 140 = "Mainstream (100-140)" ∧
    classifyTempo (mkRat 1400001 10000) = "Fast (>140)" := by
  refine ⟨?_, by decide, by decide, by decide⟩
  intro bpm
  unfold classifyTempo
  split_ifs with h1 h2
  · exact ⟨⟨fun _ => h1, fun _ => rfl⟩,
      ⟨fun hx => absurd hx (by decide), fun hx => absurd h1 (not_lt.mpr hx.1)⟩,
      ⟨fun hx => absurd hx (by decide), fun hx => absurd h1 (not_lt.mpr (le_of_lt (lt_trans (by norm_num) hx)))⟩⟩
  · exact ⟨⟨fun hx => absurd hx (by decide), fun hx => absurd hx h1⟩,
      ⟨fun _ => ⟨not_lt.mp h1, h2⟩, fun _ => rfl⟩,
      ⟨fun hx => absurd hx (by decide), fun hx => absurd h2 (not_le.mpr hx)⟩⟩
  · exact ⟨⟨fun hx => absurd hx (by decide), fun hx => absurd hx h1⟩,
      ⟨fun hx => absurd hx (by decide), fun hx => absurd hx.2 h2⟩,
      ⟨fun _ => not_le.mp h2, fun _ => rfl⟩⟩

/-- C5 confirmed: the dark-horse selection keeps exactly the records of the
view with a present follower count below 50000 and popularity above 75
(lines 270-271); the spec-modelled quadrant partition is total and
non-overlapping with both boundaries inclusive for the high-energy/high-dance
(Club) quadrant, and the boundary point (0.5, 0.5) is assigned to Club. -/
theorem C5_dark_horse_quadrants :
    (∀ (rows : List Row) (r : Row),
      r ∈ darkHorses rows ↔
        r ∈ rows ∧ (∃ f, r.Artist_followers = some f ∧ f < 50000) ∧
          75 < r.Popularity) ∧
    quadrant (mkRat 1 2) (mkRat 1 2) = "Club" ∧
    (∀ e d : ℚ,
      (quadrant e d = "Club" ↔ mkRat 1 2 ≤ e ∧ mkRat 1 2 ≤ d) ∧
      (quadrant e d = "Power" ↔ mkRat 1 2 ≤ e ∧ d < mkRat 1 2) ∧
      (quadrant e d = "Groove" ↔ e < mkRat 1 2 ∧ mkRat 1 2 ≤ d) ∧
      (quadrant e d = "Ballad" ↔ e < mkRat 1 2 ∧ d < mkRat 1 2)) := by
  refine ⟨?_, by decide, ?_⟩
  · intro rows r
    unfold darkHorses
    rw [List.mem_filter]
    constructor
    · rintro ⟨hm, hp⟩
      rcases hf : r.Artist_followers with _ | f <;> rw [hf] at hp
      · simp at hp
      · simp only [Bool.and_eq_true, decide_eq_true_eq] at hp
        exact ⟨hm, ⟨f, rfl, hp.1⟩, hp.2⟩
    · rintro ⟨hm, ⟨f, hf, hlt⟩, hpop⟩
      refine ⟨hm, ?_⟩
      rw [hf]
      simp [hlt, hpop]
  · intro e d
    unfold quadrant
    split_ifs with h1 h2 h3
    · exact ⟨⟨fun _ => ⟨h1, h2⟩, fun _ => rfl⟩,
        ⟨fun hx => absurd hx (by decide), fun hx => absurd h2 (not_le.mpr hx.2)⟩,
        ⟨fun hx => absurd hx (by decide), fun hx => absurd h1 (not_le.mpr hx.1)⟩,
        ⟨fun hx => absurd hx (by decide), fun hx => absurd h1 (not_le.mpr hx.1)⟩⟩
    · exact ⟨⟨fun hx => absurd hx (by decide), fun hx => absurd hx.2 h2⟩,
        ⟨fun _ => ⟨h1, not_le.mp h2⟩, fun _ => rfl⟩,
        ⟨fun hx => absurd hx (by decide), fun hx => absurd h1 (not_le.mpr hx.1)⟩,
        ⟨fun hx => absurd hx (by decide), fun hx => absurd h1 (not_le.mpr hx.1)⟩⟩
    · exact ⟨⟨fun hx => absurd hx (by decide), fun hx => absurd hx.1 h1⟩,
        ⟨fun hx => absurd hx (by decide), fun hx => absurd hx.1 h1⟩,
        ⟨fun _ => ⟨not_le.mp h1, h3⟩, fun _ => rfl⟩,
        ⟨fun hx => absurd hx (by decide), fun hx => absurd h3 (not_le.mpr hx.2)⟩⟩
    · exact ⟨⟨fun hx => absurd hx (by decide), fun hx => absurd hx.1 h1⟩,
        ⟨fun hx => absurd hx (by decide), fun hx => absurd hx.1 h1⟩,
        ⟨fun hx => absurd hx (by decide), fun hx => absurd hx.2 h3⟩,
        ⟨fun _ => ⟨not_le.mp h1, not_le.mp h3⟩, fun _ => rfl⟩⟩

/-- C4 confirmed: every record of a successfully loaded base table has a
popularity inside the closed interval [0, 100] and a release year derived
from a successfully parsed release date (records failing either check never
reach the table). -/
theorem C4_survivor_invariant :
    ∀ (hasExplicit : Bool) (raw : List RawRow) (t : CTable),
      load hasExplicit raw = some t →
      ∀ row ∈ t.rows,
        (0 ≤ row.Popularity ∧ row.Popularity ≤ 100) ∧
        parseDateStr row.Release_date = some row.Year := by
  intro hasExplicit raw t hl row hr
  obtain ⟨r, _, ha, _, _, hfin⟩ := mem_load_rows hl hr
  obtain ⟨hpop, _, hdate, _⟩ := finishRow_inv hfin
  refine ⟨stepA_range ha hpop, ?_⟩
  exact (dateYear_inv hdate).2

/-- Witness for C4 at the concrete snapshot `[rawPop]`. -/
theorem C4_witness :
    (0 ≤ rowPop.Popularity ∧ rowPop.Popularity ≤ 100) ∧
    parseDateStr rowPop.Release_date = some rowPop.Year :=
  C4_survivor_invariant true [rawPop] ⟨true, [rowPop]⟩ (by decide) rowPop (by decide)

/-- C9 confirmed: a sidebar interaction recomputes the filtered view and its
Tempo_Zone column from the memoized base table and leaves the base table
itself untouched — also across consecutive interactions; the view is the
pure function `dfFiltered` of base table and configuration, not an alias
(the embedding separates base and view state because pandas boolean-mask
indexing returns a fresh copy, and line 353 assigns the Tempo_Zone column to
that copy only). -/
theorem C9_base_immutable :
    ∀ (s : Session) (lo hi lo2 hi2 : ℤ) (q q2 : String),
      (interact s lo hi q).base = s.base ∧
      (interact s lo hi q).view = dfFiltered s.base.rows lo hi q ∧
      (interact s lo hi q).zone =
        (dfFiltered s.base.rows lo hi q).map (fun r => (r, classifyTempo r.tempo)) ∧
      (interact (interact s lo hi q) lo2 hi2 q2).base = s.base :=
  fun _ _ _ _ _ _ _ => ⟨rfl, rfl, rfl, rfl⟩

/-- C10 confirmed: loading a snapshot without the Explicit column succeeds
but yields a table without the label column, and the grouped mean by genre
and explicit label then fails with a KeyError instead of returning an empty
result; when the column is present, every surviving record carries the label
derived from its raw explicit value. -/
theorem C10_missing_explicit_column :
    (∀ (raw : List RawRow) (t : CTable), load false raw = some t →
      t.hasLabel = false ∧
      ∀ seg : List Row, avgExp t seg = Except.error "KeyError: Explicit_Label") ∧
    (∀ (raw : List RawRow) (t : CTable), load true raw = some t →
      ∀ row ∈ t.rows, row.Explicit_Label = some (explicitLabel row.ExplicitRaw)) := by
  constructor
  · intro raw t hl
    have hh := load_hasLabel hl
    refine ⟨hh, fun seg => ?_⟩
    unfold avgExp
    rw [hh]
    rfl
  · intro raw t hl row hr
    obtain ⟨r, _, _, _, _, hfin⟩ := mem_load_rows hl hr
    obtain ⟨_, _, _, _, _, _, _, _, _, _, hexr, hlab⟩ := finishRow_inv hfin
    rw [hlab, hexr]
    rfl

/-- Witness for C10: the concrete snapshot `[rawPop]` loaded without and
with the Explicit column. -/
theorem C10_witness :
    ((⟨false, [rowPopNL]⟩ : CTable).hasLabel = false ∧
      avgExp ⟨false, [rowPopNL]⟩ [] = Except.error "KeyError: Explicit_Label") ∧
    rowPop.Explicit_Label = some (explicitLabel rowPop.ExplicitRaw) := by
  refine ⟨⟨?_, ?_⟩, ?_⟩
  · exact (C10_missing_explicit_column.1 [rawPop] ⟨false, [rowPopNL]⟩ (by decide)).1
  · exact (C10_missing_explicit_column.1 [rawPop] ⟨false, [rowPopNL]⟩ (by decide)).2 []
  · exact C10_missing_explicit_column.2 [rawPop] ⟨true, [rowPop]⟩ (by decide) rowPop
      (by decide)

/-- C6 counterexample: the code's denylist is exactly
['n-a', 'unknown', 'world-music', 'nan']; the spelled-out placeholder
"not available" is not on it, so a record carrying that genre survives
sanitization (title-cased to "Not Available") instead of being excluded as
the claim requires. -/
theorem C6_counterexample :
    load true [rawNotAvail] = some ⟨true, [rowNotAvail]⟩ ∧
    rowNotAvail.Genre = "Not Available" := by
  decide

/-- C6 amended: sanitization excludes exactly the records whose genre,
rendered by astype(str) and lower-cased, is one of the four denylist entries
"n-a", "unknown", "world-music", "nan" — a case-insensitive match, since the
comparison lower-cases first — and every surviving record's genre is the
title-cased rendering of its source value (with the no-op K-pop
replacement). -/
theorem C6_genre_denylist :
    ∀ (hasExplicit : Bool) (r : RawRow),
      (junkGenres.contains (lower r.Genre.astype) = true →
        cleanRow hasExplicit r = none) ∧
      (∀ row, cleanRow hasExplicit r = some row →
        junkGenres.contains (lower r.Genre.astype) = false ∧
        row.Genre = kpopFix (title r.Genre.astype)) := by
  intro hasExplicit r
  constructor
  · intro hj
    have hsc : stepC r = false := by
      unfold stepC
      rw [hj]
      rfl
    unfold cleanRow
    rw [hsc]
    simp
  · intro row hcr
    obtain ⟨_, _, hc, hfin⟩ := cleanRow_some_inv hcr
    refine ⟨?_, (finishRow_inv hfin).2.2.2.2.2.1⟩
    unfold stepC at hc
    simpa using hc

/-- Witness for C6 at the concrete record whose genre is "UNKNOWN": the
denylist match is case-insensitive and the record is dropped. -/
theorem C6_witness : cleanRow true rawUnknown = none :=
  (C6_genre_denylist true rawUnknown).1 (by decide)

/-- C7 counterexample: a snapshot containing one record whose Popularity
cell is the non-numeric text "abc" makes the whole load return no table —
the well-formed record in the same snapshot is lost too — whereas the claim
requires the failed field to become missing and the record to be evaluated
by the sanitizer like any other (which would have kept the good record, as
the second conjunct shows for the snapshot without the bad record). -/
theorem C7_counterexample :
    load true [rawBadPop, rawPop] = none ∧
    load true [rawPop] = some ⟨true, [rowPop]⟩ ∧
    cleanRow true rawBadPop = none := by
  decide

/-- C7 amended: for the coerced columns (tempo, danceability, energy,
follower count, release date) a failed conversion becomes a missing value
and the record is evaluated by the sanitizer like any other — a missing
tempo is dropped by the dropna, a missing danceability survives as missing —
and no exception escapes; but a non-numeric Popularity value is compared
before any coercion (line 58 precedes line 70), which aborts the entire load
(caught `TypeError`, `load_data` returns None) instead of dropping just that
record.  When no Popularity cell is non-numeric text, the load succeeds and
processes every record independently. -/
theorem C7_coercion_nulls :
    ∀ hasExplicit : Bool,
      (∀ raw : List RawRow, (∀ r ∈ raw, r.Popularity.isStr = false) →
        load hasExplicit raw =
          some ⟨hasExplicit, raw.filterMap (cleanRow hasExplicit)⟩) ∧
      (∀ r : RawRow, r.tempo.isStr = true → finishRow hasExplicit r = none) ∧
      (∀ (r : RawRow) (row : Row), r.danceability.isStr = true →
        cleanRow hasExplicit r = some row → row.danceability = none) := by
  intro hasExplicit
  refine ⟨load_some hasExplicit, ?_, ?_⟩
  · intro r ht
    rcases hcell : r.tempo with q | s | _ <;> rw [hcell] at ht
    · simp [Cell.isStr] at ht
    · have htn : r.tempo.toNum = none := by rw [hcell]; rfl
      rcases hp : r.Popularity.toNum with _ | p <;>
        rcases hdt : r.Release_date.dateYear with _ | pr <;>
        simp [finishRow, hp, hdt, htn]
    · simp [Cell.isStr] at ht
  · intro r row hd hcr
    obtain ⟨_, _, _, hfin⟩ := cleanRow_some_inv hcr
    have hdc := (finishRow_inv hfin).2.2.2.2.2.2.2.1
    rcases hcell : r.danceability with q | s | _ <;> rw [hcell] at hd
    · simp [Cell.isStr] at hd
    · rw [hcell] at hdc
      rw [hdc]
      rfl
    · simp [Cell.isStr] at hd

/-- Witness for C7 at the concrete snapshot `[rawPop]`, whose Popularity
column is numeric. -/
theorem C7_witness :
    load true [rawPop] = some ⟨true, List.filterMap (cleanRow true) [rawPop]⟩ :=
  (C7_coercion_nulls true).1 [rawPop] (by decide)

theorem readStrCell_eq {s : String} (h : s ∉ pdNaTokens) :
    readStrCell s = Cell.str s := by
  simp [readStrCell, h]

theorem exportCell_naFree {c : Cell} (h : cellNaFree c = true) : exportCell c = c := by
  rcases c with q | s | _
  · rfl
  · have hs : s ∉ pdNaTokens := by simpa [cellNaFree] using h
    simp [exportCell, readStrCell, hs]
  · rfl

theorem cleanRow_rowToRaw {hasExplicit : Bool} {c : RawRow} {r : Row}
    (hc : cleanRow hasExplicit c = some r) (hna : rowNaFree r = true) :
    cleanRow hasExplicit (rowToRaw r) = some r := by
  obtain ⟨ha, hb, hcj, hfin⟩ := cleanRow_some_inv hc
  obtain ⟨hpop, htmp, hdate, hart, halb, hgen, hartf, hdan, hen, hfol, hexr, hlab⟩ :=
    finishRow_inv hfin
  have hna3 : (r.Genre ∉ pdNaTokens ∧ cellNaFree r.Artist = true) ∧
      cellNaFree r.ExplicitRaw = true := by
    simpa [rowNaFree, Bool.and_eq_true] using hna
  obtain ⟨⟨hgNa, haNa⟩, heNa⟩ := hna3
  have hrange := stepA_range ha hpop
  obtain ⟨s, hsc, hsv⟩ := stepB_inv hb
  have hdinv := dateYear_inv hdate
  have hdNa : r.Release_date ∉ pdNaTokens := parseDate_not_na hdinv.2
  have hBc : exportCell r.albumSingle = Cell.str s := by
    rw [halb, hsc]
    rcases hsv with rfl | rfl <;> decide
  have hEc : exportCell r.ExplicitRaw = r.ExplicitRaw := exportCell_naFree heNa
  have hAc : exportCell r.Artist = r.Artist := exportCell_naFree haNa
  have hGc : (rowToRaw r).Genre = Cell.str r.Genre := readStrCell_eq hgNa
  have hDc : (rowToRaw r).Release_date = Cell.str r.Release_date := readStrCell_eq hdNa
  have hgenEq : lower r.Genre = lower c.Genre.astype := by
    rw [hgen, lower_kpopFix, lower_title]
  have hGenStable : kpopFix (title r.Genre) = r.Genre := by
    rw [hgen]
    exact kpopTitle_stable _
  have ha' : stepA (rowToRaw r) = true := by
    unfold stepA
    rw [show (rowToRaw r).Popularity = Cell.num r.Popularity from rfl]
    simp [hrange.1, hrange.2]
  have hb' : stepB (rowToRaw r) = true := by
    unfold stepB
    rw [show (rowToRaw r).albumSingle = Cell.str s from hBc]
    rcases hsv with rfl | rfl <;> decide
  have hc' : stepC (rowToRaw r) = true := by
    unfold stepC at hcj ⊢
    rw [hGc]
    rw [show (Cell.str r.Genre).astype = r.Genre from rfl, hgenEq]
    exact hcj
  have h3 : (rowToRaw r).Release_date.dateYear = some (r.Release_date, r.Year) := by
    rw [hDc]
    simp [Cell.dateYear, hdinv.2]
  have hfin' : finishRow hasExplicit (rowToRaw r) = some r := by
    have h1 : (rowToRaw r).Popularity.toNum = some r.Popularity := rfl
    have h2 : (rowToRaw r).tempo.toNum = some r.tempo := rfl
    have hartne : ¬((rowToRaw r).Artist = Cell.blank) := by
      show ¬(exportCell r.Artist = Cell.blank)
      rw [hAc, hartf]
      exact hart
    simp only [finishRow, h1, h2, h3]
    rw [if_neg hartne]
    refine congrArg some ?_
    have hGa : (rowToRaw r).Genre.astype = r.Genre := by
      rw [hGc]
      rfl
    have hBr : (rowToRaw r).albumSingle = r.albumSingle := by
      show exportCell r.albumSingle = r.albumSingle
      rw [hBc, halb, hsc]
    have hAr : (rowToRaw r).Artist = r.Artist := hAc
    have hEr : (rowToRaw r).Explicit = r.ExplicitRaw := hEc
    have hLr : (if hasExplicit then some (explicitLabel (rowToRaw r).Explicit) else none)
        = r.Explicit_Label := by
      rw [hEr, hlab, hexr]
    cases r
    simp_all [rowToRaw, optCell_toNum, hGenStable]
  unfold cleanRow
  rw [ha', hb', hc']
  simpa using hfin'

/-- C8 counterexample: the view containing the single record whose genre is
"None" (a value the loader itself produces by title-casing the source genre
"none", first conjunct) re-loads as an empty table: `to_csv` writes the text
"None", and `read_csv` recognises it as an NA token, so the genre becomes
"nan" and the record is dropped — row count 1 before export, 0 after, so the
round trip is not equivalent. -/
theorem C8_counterexample :
    load true [rawNoneGenre] = some ⟨true, [rowNoneGenre]⟩ ∧
    exportReload true [rowNoneGenre] = some ⟨true, []⟩ ∧
    ([rowNoneGenre].length = 1 ∧ ([] : List Row).length = 0) := by
  decide

/-- C8 amended: exporting a view of loader-produced records and re-parsing
it with the same loader yields the identical record list — same row count,
same field values — provided no free-text field value (genre, artist,
explicit flag) is one of pandas' NA tokens; export itself transforms no
value, but re-parsing nulls NA-token text (e.g. the genre "None"), which can
drop records, so the equivalence holds exactly on NA-token-free views. -/
theorem C8_export_roundtrip :
    ∀ (hasExplicit : Bool) (view : List Row),
      (∀ r ∈ view, (∃ c, cleanRow hasExplicit c = some r) ∧ rowNaFree r = true) →
      exportReload hasExplicit view = some ⟨hasExplicit, view⟩ := by
  intro hasExplicit view hv
  have hall : ∀ rr ∈ view.map rowToRaw, rr.Popularity.isStr = false := by
    intro rr hrr
    obtain ⟨r0, _, rfl⟩ := List.mem_map.mp hrr
    rfl
  unfold exportReload
  rw [load_some hasExplicit _ hall]
  have key : ∀ vw : List Row,
      (∀ r ∈ vw, (∃ c, cleanRow hasExplicit c = some r) ∧ rowNaFree r = true) →
      (vw.map rowToRaw).filterMap (cleanRow hasExplicit) = vw := by
    intro vw
    induction vw with
    | nil => intro _; rfl
    | cons r t ih =>
      intro hv2
      obtain ⟨⟨c, hcr⟩, hna⟩ := hv2 r (by simp)
      rw [List.map_cons, List.filterMap_cons, cleanRow_rowToRaw hcr hna,
        ih (fun x hx => hv2 x (by simp [hx]))]
  rw [key view hv]

/-- Witness for C8 at the concrete one-record view derived from `rawPop`. -/
theorem C8_witness : exportReload true [rowPop] = some ⟨true, [rowPop]⟩ :=
  C8_export_roundtrip true [rowPop] (by
    intro r hr
    rw [List.mem_singleton] at hr
    subst hr
    exact ⟨⟨rawPop, by decide⟩, by decide⟩)

end SpotifyApp
